import Mathlib

/-!
# Admin dashboard (`admin-dashboard/src/App.jsx`)

A shallow embedding of the `App` component: its five `useState` variables, the
three asynchronous operations (`fetchMealCounts`, `fetchMenuForWeekday`,
`handleSubmitMenu`), the local edit `handleMenuChange`, the `useEffect` that
re-fetches on a view or weekday change, and the table bodies of the student
name lists.

JavaScript values are untyped; the values this component handles are parsed
JSON values and `undefined`.  A parsed JSON value is a `Json`; a value that may
also be `undefined` is an `Option Json` (`none` is `undefined`).
-/

namespace MessBot

/-! ## JavaScript values -/

/-- A parsed JSON value (what `response.json()` resolves to).  Numbers are
carried as integers: the component only tests them for truthiness (non-zero)
and shows them. -/
inductive Json where
  | null : Json
  | bool (b : Bool) : Json
  | num (n : Int) : Json
  | str (s : String) : Json
  | arr (items : List Json) : Json
  | obj (entries : List (String × Json)) : Json

/-- A JavaScript value of this component: a JSON value or `undefined` (`none`). -/
abbrev JsVal := Option Json

/-- JavaScript `ToBoolean` on a JSON value: `null`, `false`, `0` and `''` are
falsy, everything else (every object and array included) is truthy. -/
def Json.truthy : Json → Bool
  | .null => false
  | .bool b => b
  | .num n => n != 0
  | .str s => s != ""
  | .arr _ => true
  | .obj _ => true

/-- JavaScript `ToBoolean` on a value that may be `undefined`. -/
def JsVal.truthy : JsVal → Bool
  | none => false
  | some v => v.truthy

/-- The comparison `v === n` against a number literal. -/
def JsVal.strictEqNum (v : JsVal) (n : Int) : Bool :=
  match v with
  | some (.num m) => m == n
  | _ => false

/-- A thrown JavaScript error object: its `name` and `message`. -/
structure JsError where
  name : String
  message : String

/-- The value of `new Error(msg)`. -/
def mkError (msg : String) : JsError := { name := "Error", message := msg }

/-- The value of `new TypeError(msg)`. -/
def mkTypeError (msg : String) : JsError := { name := "TypeError", message := msg }

/-- The method `Error.prototype.toString`. -/
def JsError.toString (e : JsError) : String :=
  if e.name = "" then e.message
  else if e.message = "" then e.name
  else e.name ++ ": " ++ e.message

/-- The property read `error.response`.  Every value that reaches a `catch` of
this component is an `Error` made by `new Error(...)`, a `TypeError` of a
property read on `null`, or the rejection of `fetch`, `response.text()` or
`response.json()`; none of them has a `response` property, so the read gives
`undefined`. -/
def JsError.response (_e : JsError) : JsVal := none

/-- The property read `data.key` on a parsed JSON value, for the keys this
component reads (`breakfast`, `lunch`, `snacks`, `dinner`, `message`, `status`; no
prototype defines them).  On `null` the read throws a `TypeError`; on an object
it gives the entry or `undefined`; on every other value it gives `undefined`. -/
def Json.getProp (data : Json) (key : String) : Except JsError JsVal :=
  match data with
  | .null => .error (mkTypeError ("Cannot read properties of null (reading '" ++ key ++ "')"))
  | .obj entries => .ok (entries.lookup key)
  | _ => .ok none

/-- The expression `v || ''`. -/
def orEmpty (v : JsVal) : Json :=
  match v with
  | some x => if x.truthy then x else .str ""
  | none => .str ""

/-- The method `String.prototype.includes` on character lists. -/
def includesChars (pat : List Char) : List Char → Bool
  | [] => pat.isEmpty
  | c :: cs => pat.isPrefixOf (c :: cs) || includesChars pat cs

/-- The method `String.prototype.includes`. -/
def includes (s pat : String) : Bool := includesChars pat.data s.data

/-! ## HTTP exchanges -/

/-- A completely received HTTP response: the status, the `content-type`
header (`none` when the header is absent, where `headers.get` gives `null`),
the body text (`response.text()`), and the body parsed as JSON
(`response.json()`, an error when the body is not JSON text). -/
structure Response where
  status : Nat
  contentType : Option String
  text : String
  json : Except JsError Json

/-- The property `response.ok`: the status is in the range 200 to 299. -/
def Response.ok (r : Response) : Bool := decide (200 ≤ r.status) && decide (r.status ≤ 299)

/-- How an HTTP exchange ends for the awaiting operation: a response was
received, or an awaited promise of the exchange rejected (a network failure of
`fetch` or while the body is read). -/
inductive Outcome where
  | response (r : Response) : Outcome
  | reject (e : JsError) : Outcome

/-! ## Component state -/

/-- The two values `activeView` takes. -/
inductive View where
  | mealCounts : View
  | editMenu : View
  deriving DecidableEq

/-- The `menu` state object.  Each field is set from `x || ''` or from an
input's `value`, so it is never `undefined`. -/
structure Menu where
  breakfast : Json
  lunch : Json
  snacks : Json
  dinner : Json

/-- The all-empty menu `{breakfast: '', lunch: '', snacks: '', dinner: ''}`. -/
def emptyMenu : Menu :=
  { breakfast := .str "", lunch := .str "", snacks := .str "", dinner := .str "" }

/-- The `useState` variables of `App`. -/
structure State where
  activeView : View
  weekday : String
  menu : Menu
  message : JsVal
  mealCounts : Json

/-- The initial values of the `useState` calls. -/
def initialState : State :=
  { activeView := .mealCounts, weekday := "Monday", menu := emptyMenu,
    message := some (.str ""), mealCounts := .null }

/-! ## fetchMenuForWeekday -/

/-- The `catch` block of `fetchMenuForWeekday`. -/
def fetchMenuCatch (s : State) (error : JsError) : State :=
  match error.response with
  | some resp =>
    if resp.truthy then
      match resp.getProp "status" with
      | .ok status =>
        if status.truthy && !status.strictEqNum 404 then
          { s with message := some (.str "Error fetching menu.") }
        else s
      | .error _ => s
    else { s with message := some (.str "Error fetching menu: Network or server issue.") }
  | none => { s with message := some (.str "Error fetching menu: Network or server issue.") }

/-- The object literal passed to `setMenu` on a successful fetch:
`{breakfast: data.breakfast || '', lunch: data.lunch || '', ...}`.  The four
property reads run in this order and throw when `data` is `null`. -/
def menuFromData (data : Json) : Except JsError Menu := do
  let b ← data.getProp "breakfast"
  let l ← data.getProp "lunch"
  let sn ← data.getProp "snacks"
  let d ← data.getProp "dinner"
  pure { breakfast := orEmpty b, lunch := orEmpty l, snacks := orEmpty sn, dinner := orEmpty d }

/-- The body of `fetchMenuForWeekday(selectedWeekday)` from the point where the
exchange ends with outcome `o`, run on the state `s` current at that moment.
No state is written before the last `await`, so the whole effect of the
operation on the state happens at that moment. -/
def fetchMenuForWeekday (s : State) (selectedWeekday : String) (o : Outcome) : State :=
  match o with
  | .reject e => fetchMenuCatch s e
  | .response r =>
    if r.ok then
      match r.json with
      | .error e => fetchMenuCatch s e
      | .ok data =>
        match menuFromData data with
        | .error e => fetchMenuCatch s e
        | .ok m => { s with menu := m, message := some (.str "") }
    else if r.status = 404 then
      { s with
        menu := emptyMenu,
        message := some (.str ("No menu found for " ++ selectedWeekday ++ ". You can create one.")) }
    else fetchMenuCatch s (mkError ("HTTP error! status: " ++ toString r.status))

/-! ## fetchMealCounts -/

/-- The `catch` block of `fetchMealCounts`: the message is
`error.message || error.toString()` after a fixed heading. -/
def fetchMealCountsCatch (s : State) (error : JsError) : State :=
  { s with
    message := some (.str ("Error fetching meal counts: " ++
      (if error.message != "" then error.message else error.toString))) }

/-- The test `contentType && contentType.includes('application/json')`. -/
def isJsonContentType (contentType : Option String) : Bool :=
  match contentType with
  | none => false
  | some ct => ct != "" && includes ct "application/json"

/-- The body of `fetchMealCounts()` from the point where the exchange ends with
outcome `o`, run on the state `s` current at that moment. -/
def fetchMealCounts (s : State) (o : Outcome) : State :=
  match o with
  | .reject e => fetchMealCountsCatch s e
  | .response r =>
    if !r.ok then
      fetchMealCountsCatch s
        (mkError ("HTTP error! status: " ++ toString r.status ++ ", body: " ++ r.text))
    else if isJsonContentType r.contentType then
      match r.json with
      | .error e => fetchMealCountsCatch s e
      | .ok data =>
        if data.truthy then { s with mealCounts := data }
        else { s with message := some (.str "Received empty or invalid data for meal counts.") }
    else
      fetchMealCountsCatch s (mkTypeError "Received non-JSON response from meal counts API.")

/-! ## handleMenuChange -/

/-- The `name` attributes of the four text inputs of the form. -/
inductive Field where
  | breakfast : Field
  | lunch : Field
  | snacks : Field
  | dinner : Field
  deriving DecidableEq

/-- The update `{...prevMenu, [name]: value}`. -/
def Menu.set (m : Menu) (name : Field) (value : Json) : Menu :=
  match name with
  | .breakfast => { m with breakfast := value }
  | .lunch => { m with lunch := value }
  | .snacks => { m with snacks := value }
  | .dinner => { m with dinner := value }

/-- The handler `handleMenuChange` for an input event with `e.target.name = name`
and `e.target.value = value` (an input's value is always a string). -/
def handleMenuChange (s : State) (name : Field) (value : String) : State :=
  { s with menu := s.menu.set name (.str value) }

/-! ## handleSubmitMenu -/

/-- The object `{ ...menu, weekday }` that `handleSubmitMenu` serializes as the
request body.  Every value in it is a JSON value, so `JSON.stringify` keeps all
five keys. -/
def submitBody (menu : Menu) (weekday : String) : Json :=
  .obj [("breakfast", menu.breakfast), ("lunch", menu.lunch), ("snacks", menu.snacks),
        ("dinner", menu.dinner), ("weekday", .str weekday)]

/-- The part of `handleSubmitMenu` before the `await`: `setMessage('')`. -/
def handleSubmitMenuBegin (s : State) : State :=
  { s with message := some (.str "") }

/-- The `catch` block of `handleSubmitMenu`. -/
def handleSubmitMenuCatch (s : State) : State :=
  { s with message := some (.str "Error submitting menu.") }

/-- The part of `handleSubmitMenu` after the exchange ends with outcome `o`, run
on the state `s` current at that moment.  The second component tells whether
`fetchMenuForWeekday(weekday)` is called (with the `weekday` the handler closed
over, the one sent in the body). -/
def handleSubmitMenuResume (s : State) (o : Outcome) : State × Bool :=
  match o with
  | .reject _ => (handleSubmitMenuCatch s, false)
  | .response r =>
    if !r.ok then (handleSubmitMenuCatch s, false)
    else
      match r.json with
      | .error _ => (handleSubmitMenuCatch s, false)
      | .ok data =>
        match data.getProp "message" with
        | .error _ => (handleSubmitMenuCatch s, false)
        | .ok msg => ({ s with message := msg }, true)

/-! ## The component as a transition system -/

/-- An HTTP request in flight, with what its continuation closed over. -/
inductive Request where
  /-- The request `GET /mealcount/tomorrow` of `fetchMealCounts`. -/
  | mealCountsGet : Request
  /-- The request `GET /menu/{selectedWeekday}` of `fetchMenuForWeekday`. -/
  | menuGet (selectedWeekday : String) : Request
  /-- The request `POST /menu` of `handleSubmitMenu` with its body, and the
  `weekday` of the render the handler belongs to. -/
  | menuPost (body : Json) (weekday : String) : Request

/-- The component together with its requests in flight, oldest first. -/
structure Sys where
  ui : State
  pending : List Request

/-- What can happen to the component. -/
inductive Event where
  /-- A click on "Refresh Meal Counts". -/
  | clickRefresh : Event
  /-- A click on "Edit Menu". -/
  | clickEditMenu : Event
  /-- The weekday select changes to `value`. -/
  | selectWeekday (value : String) : Event
  /-- A text input named `name` changes to `value`. -/
  | editField (name : Field) (value : String) : Event
  /-- The form is submitted. -/
  | submit : Event
  /-- The request at position `i` of the requests in flight ends with `o`. -/
  | resolve (i : Nat) (o : Outcome) : Event

/-- The `useEffect` with dependencies `[activeView, weekday]`, run after a
render in which a dependency changed: the requests it starts. -/
def effectRequests (s : State) : List Request :=
  match s.activeView with
  | .mealCounts => [.mealCountsGet]
  | .editMenu => [.menuGet s.weekday]

/-- The requests the effect starts after the state went from `old` to `new`:
none when neither dependency changed. -/
def effectAfter (old new : State) : List Request :=
  if old.activeView = new.activeView ∧ old.weekday = new.weekday then []
  else effectRequests new

/-- The seven options of the weekday select. -/
def weekdays : List String :=
  ["Monday", "Tuesday", "Wednesday", "Thursday", "Friday", "Saturday", "Sunday"]

/-- One step of the component.  The form, and so the select, the inputs and the
submit button, exists only in the `editMenu` view; an event on a control that is
not rendered, or on a request that is not in flight, gives `none`. -/
def step (sys : Sys) : Event → Option Sys
  | .clickRefresh =>
    let ui := { sys.ui with activeView := .mealCounts }
    some { ui := ui, pending := sys.pending ++ [.mealCountsGet] ++ effectAfter sys.ui ui }
  | .clickEditMenu =>
    let ui := { sys.ui with activeView := .editMenu }
    some { ui := ui, pending := sys.pending ++ effectAfter sys.ui ui }
  | .selectWeekday value =>
    if sys.ui.activeView = .editMenu ∧ value ∈ weekdays then
      let ui := { sys.ui with weekday := value }
      some { ui := ui, pending := sys.pending ++ effectAfter sys.ui ui }
    else none
  | .editField name value =>
    if sys.ui.activeView = .editMenu then
      some { sys with ui := handleMenuChange sys.ui name value }
    else none
  | .submit =>
    if sys.ui.activeView = .editMenu then
      some { ui := handleSubmitMenuBegin sys.ui,
             pending := sys.pending ++ [.menuPost (submitBody sys.ui.menu sys.ui.weekday) sys.ui.weekday] }
    else none
  | .resolve i o =>
    match sys.pending[i]? with
    | none => none
    | some .mealCountsGet =>
      some { ui := fetchMealCounts sys.ui o, pending := sys.pending.eraseIdx i }
    | some (.menuGet selectedWeekday) =>
      some { ui := fetchMenuForWeekday sys.ui selectedWeekday o, pending := sys.pending.eraseIdx i }
    | some (.menuPost _ weekday) =>
      let res := handleSubmitMenuResume sys.ui o
      some { ui := res.1,
             pending := sys.pending.eraseIdx i ++ (if res.2 then [.menuGet weekday] else []) }

/-- The steps of a list of events, one after the other. -/
def run (sys : Sys) : List Event → Option Sys
  | [] => some sys
  | e :: es => (step sys e).bind (fun sys1 => run sys1 es)

/-- The component after it mounted: the first render's effect has started
`fetchMealCounts`. -/
def initialSys : Sys := { ui := initialState, pending := effectRequests initialState }

/-! ## Rendering of a student name list -/

/-- A table row `<tr key=...><td>{cell}</td></tr>`. -/
structure Tr where
  key : Option Nat
  cell : Json

/-- The children of the `<tbody>` of a student name list:
`students.length > 0 ? students.map((studentName, index) => <tr key={index}>...)
 : <tr><td>None</td></tr>`. -/
def studentRows (students : List Json) : List Tr :=
  if students.length > 0 then
    students.enum.map (fun p => { key := some p.1, cell := p.2 })
  else [{ key := none, cell := .str "None" }]

/-- The table bodies of `Object.entries(mealCounts.caffeine_students).map(...)`:
one per entry, in the order of the entries. -/
def caffeineStudentBodies (entries : List (String × List Json)) : List (String × List Tr) :=
  entries.map (fun p => (p.1, studentRows p.2))

/-! ## Accessors used to state the properties -/

/-- The key of a menu field in a JSON object. -/
def Field.key : Field → String
  | .breakfast => "breakfast"
  | .lunch => "lunch"
  | .snacks => "snacks"
  | .dinner => "dinner"

/-- The read `menu[name]`. -/
def Menu.get (m : Menu) : Field → Json
  | .breakfast => m.breakfast
  | .lunch => m.lunch
  | .snacks => m.snacks
  | .dinner => m.dinner

/-- The message the `catch` of `fetchMenuForWeekday` shows. -/
def menuFetchError : String := "Error fetching menu: Network or server issue."

/-! ## Sample inputs and specification-side definitions -/

/-- A state of the edit view whose draft holds Monday's menu. -/
def mondayDraftState : State :=
  { initialState with
    activeView := .editMenu,
    menu := { breakfast := .str "Idli", lunch := .str "Rice", snacks := .str "Tea",
              dinner := .str "Roti" } }

/-- A 2xx body with a string breakfast, a `null` lunch and no other field. -/
def sampleMenuResponse : Response :=
  { status := 200, contentType := some "application/json", text := "",
    json := .ok (.obj [("breakfast", .str "Idli"), ("lunch", .null)]) }

/-- A state in which meal counts have been loaded. -/
def loadedState : State :=
  { initialState with
    mealCounts := .obj [("date", .str "2025-01-01"), ("veg", .num 2), ("non_veg", .num 0),
                        ("veg_students", .arr [.str "Asha", .str "Ravi"]),
                        ("non_veg_students", .arr [])],
    message := some (.str "Saved") }

/-- The edit view with an all-empty draft, opened on Monday, nothing in flight. -/
def editSys : Sys :=
  { ui := { initialState with activeView := .editMenu }, pending := [] }

/-- A 2xx answer to the post with a confirmation message. -/
def savedResponse : Response :=
  { status := 200, contentType := some "application/json", text := "",
    json := .ok (.obj [("message", .str "Menu saved")]) }

/-- A 2xx answer to a menu fetch whose `snacks` field is `null`. -/
def nullSnacksResponse : Response :=
  { status := 200, contentType := some "application/json", text := "",
    json := .ok (.obj [("breakfast", .str "Dosa"), ("lunch", .str "Rice"),
                       ("snacks", .null), ("dinner", .str "Roti")]) }

/-- A 2xx answer to a menu fetch whose parsed body is `null`. -/
def nullBodyResponse : Response :=
  { status := 200, contentType := some "application/json", text := "null", json := .ok .null }

/-- A 204 answer: a 2xx status with an empty body, which is not JSON text. -/
def noContentResponse : Response :=
  { status := 204, contentType := none, text := "",
    json := .error { name := "SyntaxError", message := "Unexpected end of JSON input" } }

/-- Whether `fetchMenuForWeekday` calls `setMenu` on this outcome: on a 2xx
response whose body gives a menu, and on a 404. -/
def replacesDraft (o : Outcome) : Bool :=
  match o with
  | .reject _ => false
  | .response r =>
    if r.ok then
      match r.json with
      | .error _ => false
      | .ok data =>
        match menuFromData data with
        | .error _ => false
        | .ok _ => true
    else decide (r.status = 404)

/-- The weekday the draft was loaded for after the events `es` from `sys`: the
weekday of the last menu fetch whose response replaced the draft (`loaded` when
there was none).  It reads the run and takes no part in it. -/
def draftLoadedFor (sys : Sys) (loaded : Option String) : List Event → Option String
  | [] => loaded
  | e :: es =>
    match step sys e with
    | none => loaded
    | some sys1 =>
      let loaded1 :=
        match e with
        | .resolve i o =>
          match sys.pending[i]? with
          | some (.menuGet w) => if replacesDraft o then some w else loaded
          | _ => loaded
        | _ => loaded
      draftLoadedFor sys1 loaded1 es

/-- A 2xx answer to the menu fetch for Monday. -/
def mondayMenuResponse : Response :=
  { status := 200, contentType := some "application/json", text := "",
    json := .ok (.obj [("breakfast", .str "Idli"), ("lunch", .str "Rice"),
                       ("snacks", .str "Tea"), ("dinner", .str "Roti")]) }

/-- The edit view is opened, Monday's menu arrives, the weekday is changed to
Tuesday, and the form is submitted before the fetch for Tuesday has ended. -/
def staleTrace : List Event :=
  [.clickEditMenu, .resolve 1 (.response mondayMenuResponse), .selectWeekday "Tuesday", .submit]

/-! ## Lemmas on the operations -/

theorem fetchMenuCatch_eq (s : State) (e : JsError) :
    fetchMenuCatch s e = { s with message := some (.str menuFetchError) } := rfl

theorem getProp_ok_of_ne_null (data : Json) (h : data ≠ .null) (key : String) :
    ∃ v, data.getProp key = .ok v := by
  cases data <;> simp [Json.getProp] at *

theorem menuFromData_of_ne_null (data : Json) (h : data ≠ .null) :
    ∃ b l sn d, data.getProp "breakfast" = .ok b ∧ data.getProp "lunch" = .ok l ∧
      data.getProp "snacks" = .ok sn ∧ data.getProp "dinner" = .ok d ∧
      menuFromData data = .ok { breakfast := orEmpty b, lunch := orEmpty l,
                                snacks := orEmpty sn, dinner := orEmpty d } := by
  obtain ⟨b, hb⟩ := getProp_ok_of_ne_null data h "breakfast"
  obtain ⟨l, hl⟩ := getProp_ok_of_ne_null data h "lunch"
  obtain ⟨sn, hsn⟩ := getProp_ok_of_ne_null data h "snacks"
  obtain ⟨d, hd⟩ := getProp_ok_of_ne_null data h "dinner"
  refine ⟨b, l, sn, d, hb, hl, hsn, hd, ?_⟩
  simp only [menuFromData, hb, hl, hsn, hd]
  rfl

theorem fetchMenu_ok (s : State) (W : String) (r : Response) (data : Json) (m : Menu)
    (hok : r.ok = true) (hjson : r.json = .ok data) (hm : menuFromData data = .ok m) :
    fetchMenuForWeekday s W (.response r) = { s with menu := m, message := some (.str "") } := by
  simp only [fetchMenuForWeekday, hok, hjson, hm, if_true]

theorem orEmpty_truthy (v : Json) (h : v.truthy = true) : orEmpty (some v) = v := by
  simp [orEmpty, h]

theorem orEmpty_falsy (v : Json) (h : v.truthy = false) : orEmpty (some v) = .str "" := by
  simp [orEmpty, h]

theorem orEmpty_str (t : String) : orEmpty (some (.str t)) = .str t := by
  by_cases h : t = ""
  · subst h; simp [orEmpty, Json.truthy]
  · simp [orEmpty, Json.truthy, h]

/-- The fields of the menu a successful fetch stores, read off a body that is
not `null`. -/
theorem menuFromData_get (data : Json) (h : data ≠ .null) :
    ∃ m, menuFromData data = .ok m ∧
      ∀ f : Field, ∃ v, data.getProp f.key = .ok v ∧ m.get f = orEmpty v := by
  obtain ⟨b, l, sn, d, hb, hl, hsn, hd, hm⟩ := menuFromData_of_ne_null data h
  refine ⟨_, hm, ?_⟩
  intro f
  cases f
  · exact ⟨b, hb, rfl⟩
  · exact ⟨l, hl, rfl⟩
  · exact ⟨sn, hsn, rfl⟩
  · exact ⟨d, hd, rfl⟩

/-- What `v || ''` stores for a field whose read gave `v0`. -/
theorem orEmpty_cases (data : Json) (key : String) (v0 : JsVal) (x : Json)
    (hv0 : data.getProp key = .ok v0) (hx : x = orEmpty v0) :
    (∀ v, data.getProp key = .ok (some v) → v.truthy = true → x = v) ∧
    (∀ t, data.getProp key = .ok (some (.str t)) → x = .str t) ∧
    (∀ v, data.getProp key = .ok (some v) → v.truthy = false → x = .str "") ∧
    (data.getProp key = .ok none → x = .str "") := by
  simp only [hv0, Except.ok.injEq]
  refine ⟨?_, ?_, ?_, ?_⟩
  · intro v hv ht
    subst hv
    exact hx.trans (orEmpty_truthy v ht)
  · intro t hv
    subst hv
    exact hx.trans (orEmpty_str t)
  · intro v hv ht
    subst hv
    exact hx.trans (orEmpty_falsy v ht)
  · intro hv
    subst hv
    exact hx

/-! ## C1: a 404 on the menu fetch -/

/-- C1: for every weekday `W` and every prior state, a response with status 404
makes `fetchMenuForWeekday` set the menu to the all-empty menu and the message
to "No menu found for W. You can create one.", whatever they were before. -/
theorem fetchMenu_404 (s : State) (W : String) (r : Response) (h : r.status = 404) :
    (fetchMenuForWeekday s W (.response r)).menu =
        { breakfast := .str "", lunch := .str "", snacks := .str "", dinner := .str "" } ∧
      (fetchMenuForWeekday s W (.response r)).message =
        some (.str ("No menu found for " ++ W ++ ". You can create one.")) := by
  have hok : r.ok = false := by simp [Response.ok, h]
  simp only [fetchMenuForWeekday, hok, h]
  exact ⟨rfl, rfl⟩

theorem fetchMenu_404_witness :
    (fetchMenuForWeekday
        { initialState with
          menu := { breakfast := .str "Idli", lunch := .str "Rice", snacks := .str "Tea",
                    dinner := .str "Roti" },
          message := some (.str "Saved") }
        "Tuesday"
        (.response { status := 404, contentType := none, text := "Not Found",
                     json := .ok .null })).menu =
        { breakfast := .str "", lunch := .str "", snacks := .str "", dinner := .str "" } ∧
      (fetchMenuForWeekday
        { initialState with
          menu := { breakfast := .str "Idli", lunch := .str "Rice", snacks := .str "Tea",
                    dinner := .str "Roti" },
          message := some (.str "Saved") }
        "Tuesday"
        (.response { status := 404, contentType := none, text := "Not Found",
                     json := .ok .null })).message =
        some (.str ("No menu found for " ++ "Tuesday" ++ ". You can create one.")) :=
  fetchMenu_404 _ "Tuesday" _ rfl

/-! ## C2: a successful menu fetch -/

/-- C2, as stated, fails.  On a 2xx response whose parsed body is `null` (a body
that has none of the four fields) the draft is not set to empty strings but
left as it was, and the message is not cleared but set to the fetch-error
message.  On a 2xx response whose body has `breakfast: null` the field is
present in the body, yet the draft's breakfast becomes the empty string and not
the body's value. -/
theorem fetchMenu_null_counterexample :
    ((fetchMenuForWeekday mondayDraftState "Tuesday"
        (.response { status := 200, contentType := some "application/json", text := "null",
                     json := .ok .null })).menu.breakfast = .str "Idli" ∧
      (fetchMenuForWeekday mondayDraftState "Tuesday"
        (.response { status := 200, contentType := some "application/json", text := "null",
                     json := .ok .null })).message
        = some (.str "Error fetching menu: Network or server issue.") ∧
      Json.str "Idli" ≠ Json.str "" ∧
      "Error fetching menu: Network or server issue." ≠ "") ∧
    ((Json.obj [("breakfast", .null), ("lunch", .str "Rice"), ("snacks", .str "Tea"),
                ("dinner", .str "Roti")]).getProp "breakfast" = .ok (some .null) ∧
      (fetchMenuForWeekday initialState "Monday"
        (.response { status := 200, contentType := some "application/json", text := "",
                     json := .ok (.obj [("breakfast", .null), ("lunch", .str "Rice"),
                                        ("snacks", .str "Tea"), ("dinner", .str "Roti")]) })
        ).menu.breakfast = .str "" ∧
      Json.str "" ≠ Json.null) := by
  refine ⟨⟨rfl, rfl, ?_, ?_⟩, rfl, rfl, ?_⟩
  · intro h
    injection h with h1
    exact absurd h1 (by decide)
  · decide
  · intro h
    cases h

/-- C2, amended: for every weekday and every 2xx menu response whose parsed
body `data` is not `null`, `fetchMenuForWeekday` clears the message and sets
each of the four draft fields to the body's value of that field when the body
has it with a truthy value (every string value is kept, the empty one
included), and to the empty string when the body lacks the field or has it with
a falsy value (`null`, `false`, `0`). -/
theorem fetchMenu_success (s : State) (W : String) (r : Response) (data : Json)
    (hok : r.ok = true) (hjson : r.json = .ok data) (hdata : data ≠ .null) :
    (fetchMenuForWeekday s W (.response r)).message = some (.str "") ∧
      ∀ f : Field,
        (∀ v, data.getProp f.key = .ok (some v) → v.truthy = true →
          (fetchMenuForWeekday s W (.response r)).menu.get f = v) ∧
        (∀ t, data.getProp f.key = .ok (some (.str t)) →
          (fetchMenuForWeekday s W (.response r)).menu.get f = .str t) ∧
        (∀ v, data.getProp f.key = .ok (some v) → v.truthy = false →
          (fetchMenuForWeekday s W (.response r)).menu.get f = .str "") ∧
        (data.getProp f.key = .ok none →
          (fetchMenuForWeekday s W (.response r)).menu.get f = .str "") := by
  obtain ⟨m, hm, hget⟩ := menuFromData_get data hdata
  rw [fetchMenu_ok s W r data m hok hjson hm]
  refine ⟨rfl, ?_⟩
  intro f
  obtain ⟨v0, hv0, hf⟩ := hget f
  exact orEmpty_cases data f.key v0 _ hv0 hf

theorem fetchMenu_success_witness :
    (fetchMenuForWeekday initialState "Monday" (.response sampleMenuResponse)).message
        = some (.str "") ∧
      (fetchMenuForWeekday initialState "Monday" (.response sampleMenuResponse)).menu.get
        .breakfast = .str "Idli" ∧
      (fetchMenuForWeekday initialState "Monday" (.response sampleMenuResponse)).menu.get
        .lunch = .str "" ∧
      (fetchMenuForWeekday initialState "Monday" (.response sampleMenuResponse)).menu.get
        .dinner = .str "" :=
  have h := fetchMenu_success initialState "Monday" sampleMenuResponse
    (.obj [("breakfast", .str "Idli"), ("lunch", .null)]) rfl rfl (by intro h; cases h)
  ⟨h.1, (h.2 .breakfast).2.1 "Idli" rfl, (h.2 .lunch).2.2.1 .null rfl rfl,
    (h.2 .dinner).2.2.2 rfl⟩

/-! ## C7: failures of the menu fetch -/

theorem noMenuMessage_ne (W : String) :
    "No menu found for " ++ W ++ ". You can create one." ≠ "Error fetching menu." := by
  intro h
  have h2 := congrArg String.data h
  simp only [String.data_append] at h2
  have h3 := congrArg List.head? h2
  simp at h3

theorem fetchMenu_message_cases (s : State) (W : String) (o : Outcome) :
    (fetchMenuForWeekday s W o).message = some (.str "") ∨
      (fetchMenuForWeekday s W o).message =
        some (.str ("No menu found for " ++ W ++ ". You can create one.")) ∨
      (fetchMenuForWeekday s W o).message =
        some (.str "Error fetching menu: Network or server issue.") := by
  cases o with
  | reject e => exact Or.inr (Or.inr rfl)
  | response r =>
    unfold fetchMenuForWeekday
    simp only
    split
    · split
      · exact Or.inr (Or.inr rfl)
      · split
        · exact Or.inr (Or.inr rfl)
        · exact Or.inl rfl
    · split
      · exact Or.inr (Or.inl rfl)
      · exact Or.inr (Or.inr rfl)

/-- C7: for every weekday and every prior state, a non-2xx status other than
404, or a rejected fetch, leaves the menu (and all of the state but the
message) as it was and sets the message to exactly
"Error fetching menu: Network or server issue."; the two failures give the
same state; and no outcome at all makes `fetchMenuForWeekday` leave the message
"Error fetching menu.", the text of the branch that tests `error.response`. -/
theorem fetchMenu_failure (s : State) (W : String) :
    (∀ r : Response, r.ok = false → r.status ≠ 404 →
      fetchMenuForWeekday s W (.response r) =
        { s with message := some (.str "Error fetching menu: Network or server issue.") }) ∧
    (∀ e : JsError,
      fetchMenuForWeekday s W (.reject e) =
        { s with message := some (.str "Error fetching menu: Network or server issue.") }) ∧
    (∀ (r : Response) (e : JsError), r.ok = false → r.status ≠ 404 →
      fetchMenuForWeekday s W (.response r) = fetchMenuForWeekday s W (.reject e)) ∧
    (∀ o : Outcome,
      (fetchMenuForWeekday s W o).message ≠ some (.str "Error fetching menu.")) := by
  have h1 : ∀ r : Response, r.ok = false → r.status ≠ 404 →
      fetchMenuForWeekday s W (.response r) =
        { s with message := some (.str "Error fetching menu: Network or server issue.") } := by
    intro r hok h404
    simp only [fetchMenuForWeekday, hok, h404]
    rfl
  refine ⟨h1, fun _ => rfl, fun r e hok h404 => (h1 r hok h404).trans rfl, ?_⟩
  intro o h
  rcases fetchMenu_message_cases s W o with h0 | h0 | h0
  · rw [h0] at h
    simp at h
  · rw [h0] at h
    simp only [Option.some.injEq, Json.str.injEq] at h
    exact noMenuMessage_ne W h
  · rw [h0] at h
    simp at h

theorem fetchMenu_failure_witness :
    (fetchMenuForWeekday
        { initialState with menu := { emptyMenu with breakfast := .str "Idli" } } "Friday"
        (.response { status := 500, contentType := none, text := "Internal Server Error",
                     json := .error (mkError "Unexpected token") })).menu.breakfast
        = .str "Idli" ∧
      (fetchMenuForWeekday
        { initialState with menu := { emptyMenu with breakfast := .str "Idli" } } "Friday"
        (.response { status := 500, contentType := none, text := "Internal Server Error",
                     json := .error (mkError "Unexpected token") })).message
        = some (.str "Error fetching menu: Network or server issue.") :=
  have h := (fetchMenu_failure
      { initialState with menu := { emptyMenu with breakfast := .str "Idli" } } "Friday").1
    { status := 500, contentType := none, text := "Internal Server Error",
      json := .error (mkError "Unexpected token") } rfl (by decide)
  ⟨congrArg (fun t => t.menu.breakfast) h, congrArg State.message h⟩

/-! ## C3 and C8: the meal-count fetch -/

/-- C3: for every prior state and every non-2xx status, `fetchMealCounts`
leaves the meal counts as they were and sets the message to a non-empty string
that contains the decimal digits of the status; the meal counts are also left
as they were on a 2xx response whose content type is not JSON and on a
rejected fetch. -/
theorem fetchMealCounts_failure (s : State) :
    (∀ r : Response, r.ok = false →
      (fetchMealCounts s (.response r)).mealCounts = s.mealCounts ∧
      ∃ msg : String, (fetchMealCounts s (.response r)).message = some (.str msg) ∧
        msg ≠ "" ∧ ∃ before after : String, msg = before ++ toString r.status ++ after) ∧
    (∀ r : Response, r.ok = true → isJsonContentType r.contentType = false →
      (fetchMealCounts s (.response r)).mealCounts = s.mealCounts) ∧
    (∀ e : JsError, (fetchMealCounts s (.reject e)).mealCounts = s.mealCounts) := by
  refine ⟨?_, ?_, fun _ => rfl⟩
  · intro r hok
    have hne : ("HTTP error! status: " ++ toString r.status ++ ", body: " ++ r.text != "")
        = true := by
      rw [bne_iff_ne]
      intro h
      have h2 := congrArg String.data h
      simp only [String.data_append] at h2
      have h3 := congrArg List.head? h2
      simp at h3
    have hs : fetchMealCounts s (.response r) =
        { s with message := some (.str ("Error fetching meal counts: " ++
          ("HTTP error! status: " ++ toString r.status ++ ", body: " ++ r.text))) } := by
      simp only [fetchMealCounts, hok, fetchMealCountsCatch, mkError]
      simp only [hne]
      rfl
    rw [hs]
    refine ⟨rfl, _, rfl, ?_, "Error fetching meal counts: HTTP error! status: ",
      ", body: " ++ r.text, ?_⟩
    · intro h
      have h2 := congrArg String.data h
      simp only [String.data_append] at h2
      have h3 := congrArg List.head? h2
      simp at h3
    · apply String.ext
      simp only [String.data_append, List.append_assoc]
      rfl
  · intro r hok hct
    simp only [fetchMealCounts, hok, hct]
    rfl

theorem fetchMealCounts_failure_witness :
    (fetchMealCounts loadedState
        (.response { status := 500, contentType := some "text/plain", text := "boom",
                     json := .error (mkError "Unexpected token") })).mealCounts
        = loadedState.mealCounts ∧
      (fetchMealCounts loadedState
        (.response { status := 500, contentType := some "text/plain", text := "boom",
                     json := .error (mkError "Unexpected token") })).message
        = some (.str "Error fetching meal counts: HTTP error! status: 500, body: boom") :=
  ⟨((fetchMealCounts_failure loadedState).1
      { status := 500, contentType := some "text/plain", text := "boom",
        json := .error (mkError "Unexpected token") } rfl).1, by rfl⟩

theorem truthy_eq_false_iff (d : Json) :
    d.truthy = false ↔ d = .null ∨ d = .bool false ∨ d = .num 0 ∨ d = .str "" := by
  cases d <;> simp [Json.truthy]

/-- C8, as stated, fails.  The parsed body `{}` is an empty value, yet it is
stored as the meal counts and the message is left as it was; the parsed body
`0` is neither empty nor `null`, yet the meal counts are left as they were and
the message becomes the informational one. -/
theorem fetchMealCounts_empty_counterexample :
    ((fetchMealCounts loadedState
        (.response { status := 200, contentType := some "application/json",
                     text := "\x7b\x7d", json := .ok (.obj []) })).mealCounts = .obj [] ∧
      (fetchMealCounts loadedState
        (.response { status := 200, contentType := some "application/json",
                     text := "\x7b\x7d", json := .ok (.obj []) })).message
        = some (.str "Saved") ∧
      Json.obj [] ≠ loadedState.mealCounts) ∧
    ((fetchMealCounts loadedState
        (.response { status := 200, contentType := some "application/json",
                     text := "0", json := .ok (.num 0) })).mealCounts
        = loadedState.mealCounts ∧
      (fetchMealCounts loadedState
        (.response { status := 200, contentType := some "application/json",
                     text := "0", json := .ok (.num 0) })).message
        = some (.str "Received empty or invalid data for meal counts.") ∧
      loadedState.mealCounts ≠ Json.num 0 ∧
      Json.num 0 ≠ Json.null) := by
  refine ⟨⟨rfl, rfl, ?_⟩, rfl, rfl, ?_, ?_⟩
  · intro h
    injection h with h1
    cases h1
  · intro h
    cases h
  · intro h
    cases h

/-- C8, amended: for every prior state and every 2xx meal-count response with a
JSON content type and parsed body `d`: when `d` is truthy, that is anything
other than `null`, `false`, `0` and the empty string (every object and array
included, the empty ones too), `fetchMealCounts` replaces the meal counts with
`d` and leaves the message as it was; when `d` is `null`, `false`, `0` or the
empty string, the meal counts are left as they were and the message becomes
"Received empty or invalid data for meal counts.". -/
theorem fetchMealCounts_success (s : State) (r : Response) (d : Json)
    (hok : r.ok = true) (hct : isJsonContentType r.contentType = true)
    (hjson : r.json = .ok d) :
    (d.truthy = true →
      (fetchMealCounts s (.response r)).mealCounts = d ∧
      (fetchMealCounts s (.response r)).message = s.message) ∧
    (d.truthy = false →
      (fetchMealCounts s (.response r)).mealCounts = s.mealCounts ∧
      (fetchMealCounts s (.response r)).message =
        some (.str "Received empty or invalid data for meal counts.")) ∧
    (d.truthy = false ↔ d = .null ∨ d = .bool false ∨ d = .num 0 ∨ d = .str "") ∧
    ((∃ entries, d = .obj entries) ∨ (∃ items, d = .arr items) →
      (fetchMealCounts s (.response r)).mealCounts = d ∧
      (fetchMealCounts s (.response r)).message = s.message) ∧
    (d = .null ∨ d = .bool false ∨ d = .num 0 ∨ d = .str "" →
      (fetchMealCounts s (.response r)).mealCounts = s.mealCounts ∧
      (fetchMealCounts s (.response r)).message =
        some (.str "Received empty or invalid data for meal counts.")) := by
  have h1 : d.truthy = true →
      (fetchMealCounts s (.response r)).mealCounts = d ∧
      (fetchMealCounts s (.response r)).message = s.message := by
    intro ht
    simp only [fetchMealCounts, hok, hct, hjson, ht]
    exact ⟨rfl, rfl⟩
  have h2 : d.truthy = false →
      (fetchMealCounts s (.response r)).mealCounts = s.mealCounts ∧
      (fetchMealCounts s (.response r)).message =
        some (.str "Received empty or invalid data for meal counts.") := by
    intro ht
    simp only [fetchMealCounts, hok, hct, hjson, ht]
    exact ⟨rfl, rfl⟩
  refine ⟨h1, h2, truthy_eq_false_iff d, ?_, fun h => h2 ((truthy_eq_false_iff d).mpr h)⟩
  rintro (⟨entries, rfl⟩ | ⟨items, rfl⟩)
  · exact h1 rfl
  · exact h1 rfl

theorem fetchMealCounts_success_witness :
    ((fetchMealCounts loadedState
        (.response { status := 200, contentType := some "application/json; charset=utf-8",
                     text := "", json := .ok (.obj [("veg", .num 7)]) })).mealCounts
        = .obj [("veg", .num 7)] ∧
      (fetchMealCounts loadedState
        (.response { status := 200, contentType := some "application/json; charset=utf-8",
                     text := "", json := .ok (.obj [("veg", .num 7)]) })).message
        = some (.str "Saved")) ∧
    ((fetchMealCounts loadedState
        (.response { status := 200, contentType := some "application/json",
                     text := "null", json := .ok .null })).mealCounts
        = loadedState.mealCounts ∧
      (fetchMealCounts loadedState
        (.response { status := 200, contentType := some "application/json",
                     text := "null", json := .ok .null })).message
        = some (.str "Received empty or invalid data for meal counts.")) :=
  ⟨(fetchMealCounts_success loadedState
      { status := 200, contentType := some "application/json; charset=utf-8",
        text := "", json := .ok (.obj [("veg", .num 7)]) } (.obj [("veg", .num 7)])
      rfl (by decide) rfl).1 rfl,
   (fetchMealCounts_success loadedState
      { status := 200, contentType := some "application/json", text := "null",
        json := .ok .null } .null rfl (by decide) rfl).2.1 rfl⟩

/-! ## C9: the student name lists -/

theorem map_snd_enumFrom (n : Nat) (l : List Json) :
    (List.enumFrom n l).map Prod.snd = l := by
  induction l generalizing n with
  | nil => rfl
  | cons a t ih => simp [List.enumFrom, ih]

/-- C9: the table body of a student name list has exactly one row, with the
text "None", when the list is empty; otherwise it has one row per name, holding
the names in the order of the list; it never has zero rows.  The caffeine lists
get one table body per entry, each built from the entry's list in this way. -/
theorem studentRows_spec (L : List Json) :
    (L = [] → studentRows L = [{ key := none, cell := .str "None" }]) ∧
    (L ≠ [] → (studentRows L).length = L.length ∧ (studentRows L).map Tr.cell = L) ∧
    studentRows L ≠ [] ∧
    (∀ entries : List (String × List Json),
      (caffeineStudentBodies entries).length = entries.length ∧
      ∀ p ∈ caffeineStudentBodies entries, ∃ students, (p.1, students) ∈ entries ∧
        p.2 ≠ [] ∧
        (students = [] → p.2 = [{ key := none, cell := .str "None" }]) ∧
        (students ≠ [] → p.2.length = students.length ∧ p.2.map Tr.cell = students)) := by
  have hnil : studentRows [] = [{ key := none, cell := .str "None" }] := rfl
  have hcons : ∀ M : List Json, M ≠ [] →
      (studentRows M).length = M.length ∧ (studentRows M).map Tr.cell = M := by
    intro M h
    have hpos : 0 < M.length := List.length_pos.mpr h
    simp only [studentRows, hpos, if_true, List.length_map, List.enum_length, List.map_map]
    exact ⟨trivial, map_snd_enumFrom 0 M⟩
  have hne : ∀ M : List Json, studentRows M ≠ [] := by
    intro M
    cases M with
    | nil => simp [studentRows]
    | cons a t => simp [studentRows, List.enum, List.enumFrom]
  refine ⟨fun h => h ▸ hnil, hcons L, hne L, ?_⟩
  intro entries
  refine ⟨by simp [caffeineStudentBodies], ?_⟩
  intro p hp
  simp only [caffeineStudentBodies, List.mem_map] at hp
  obtain ⟨q, hq, rfl⟩ := hp
  exact ⟨q.2, hq, hne q.2, fun h => h ▸ hnil, hcons q.2⟩

theorem studentRows_spec_witness :
    studentRows [] = [{ key := none, cell := .str "None" }] ∧
      (studentRows [.str "Asha", .str "Ravi"]).length = 2 ∧
      (studentRows [.str "Asha", .str "Ravi"]).map Tr.cell = [.str "Asha", .str "Ravi"] :=
  ⟨(studentRows_spec []).1 rfl, (studentRows_spec [.str "Asha", .str "Ravi"]).2.1 (by simp)⟩

/-! ## Steps of the transition system -/

theorem getElem?_append_last (l : List Request) (req : Request) :
    (l ++ [req])[l.length]? = some req := by
  simp

theorem eraseIdx_append_last (l : List Request) (req : Request) :
    (l ++ [req]).eraseIdx l.length = l := by
  rw [List.eraseIdx_append_of_length_le (le_refl _)]
  simp

theorem step_submit (sys : Sys) (h : sys.ui.activeView = .editMenu) :
    step sys .submit = some
      { ui := { sys.ui with message := some (.str "") },
        pending := sys.pending ++
          [.menuPost (submitBody sys.ui.menu sys.ui.weekday) sys.ui.weekday] } := by
  show (if sys.ui.activeView = .editMenu then _ else _) = _
  rw [if_pos h]
  rfl

theorem step_resolve_menuGet (u : State) (l : List Request) (w : String) (o : Outcome) :
    step { ui := u, pending := l ++ [.menuGet w] } (.resolve l.length o) =
      some { ui := fetchMenuForWeekday u w o, pending := l } := by
  simp only [step, getElem?_append_last, eraseIdx_append_last]

theorem step_resolve_menuPost (u : State) (l : List Request) (body : Json) (w : String)
    (o : Outcome) :
    step { ui := u, pending := l ++ [.menuPost body w] } (.resolve l.length o) =
      some { ui := (handleSubmitMenuResume u o).1,
             pending := l ++ (if (handleSubmitMenuResume u o).2 then [.menuGet w] else []) } := by
  simp only [step, getElem?_append_last, eraseIdx_append_last]

theorem handleSubmitMenuResume_ok (u : State) (r : Response) (data : Json) (msg : JsVal)
    (hok : r.ok = true) (hjson : r.json = .ok data) (hmsg : data.getProp "message" = .ok msg) :
    handleSubmitMenuResume u (.response r) = ({ u with message := msg }, true) := by
  simp only [handleSubmitMenuResume, hok, hjson, hmsg]
  rfl

theorem effectAfter_same (old new : State) (hv : old.activeView = new.activeView)
    (hw : old.weekday = new.weekday) : effectAfter old new = [] := by
  simp [effectAfter, hv, hw]

theorem effectAfter_weekday (old new : State) (hw : old.weekday ≠ new.weekday) :
    effectAfter old new = effectRequests new := by
  simp [effectAfter, hw]

theorem step_selectWeekday (sys : Sys) (v : String) (h : sys.ui.activeView = .editMenu)
    (hv : v ∈ weekdays) (hne : v ≠ sys.ui.weekday) :
    step sys (.selectWeekday v) = some
      { ui := { sys.ui with weekday := v }, pending := sys.pending ++ [.menuGet v] } := by
  have hne2 : sys.ui.weekday ≠ v := fun h2 => hne h2.symm
  show (if sys.ui.activeView = .editMenu ∧ v ∈ weekdays then _ else _) = _
  rw [if_pos ⟨h, hv⟩]
  show some (Sys.mk { sys.ui with weekday := v }
      (sys.pending ++ effectAfter sys.ui { sys.ui with weekday := v })) = _
  rw [effectAfter_weekday sys.ui { sys.ui with weekday := v } hne2]
  simp only [effectRequests, h]

theorem step_selectWeekday_same (sys : Sys) (h : sys.ui.activeView = .editMenu)
    (hv : sys.ui.weekday ∈ weekdays) :
    step sys (.selectWeekday sys.ui.weekday) = some sys := by
  show (if sys.ui.activeView = .editMenu ∧ sys.ui.weekday ∈ weekdays then _ else _) = _
  rw [if_pos ⟨h, hv⟩]
  show some (Sys.mk sys.ui (sys.pending ++ effectAfter sys.ui sys.ui)) = some sys
  rw [effectAfter_same sys.ui sys.ui rfl rfl, List.append_nil]

/-! ## C4: the submitted payload -/

/-- C4: for every state, with draft `m` and weekday `W`, the body that
`handleSubmitMenu` posts has the four menu fields with exactly the draft's
values and a `weekday` field equal to `W`; in the edit view the submit is
accepted whatever the draft holds (empty strings included) and posts that body;
and when the weekday was changed to `v` just before, the body carries `v`, the
weekday current at submission. -/
theorem submit_payload (sys : Sys) :
    (∀ f : Field,
      (submitBody sys.ui.menu sys.ui.weekday).getProp f.key = .ok (some (sys.ui.menu.get f))) ∧
    (submitBody sys.ui.menu sys.ui.weekday).getProp "weekday"
      = .ok (some (.str sys.ui.weekday)) ∧
    (sys.ui.activeView = .editMenu →
      ∃ ui, step sys .submit = some
        { ui := ui,
          pending := sys.pending ++
            [.menuPost (submitBody sys.ui.menu sys.ui.weekday) sys.ui.weekday] }) ∧
    (sys.ui.activeView = .editMenu → ∀ v : String, v ∈ weekdays →
      ∃ sys1 ui2, step sys (.selectWeekday v) = some sys1 ∧
        step sys1 .submit = some
          { ui := ui2, pending := sys1.pending ++ [.menuPost (submitBody sys.ui.menu v) v] } ∧
        (submitBody sys.ui.menu v).getProp "weekday" = .ok (some (.str v))) := by
  refine ⟨?_, rfl, fun h => ⟨_, step_submit sys h⟩, ?_⟩
  · intro f
    cases f <;> rfl
  · intro h v hv
    by_cases hne : v = sys.ui.weekday
    · subst hne
      exact ⟨sys, _, step_selectWeekday_same sys h hv, step_submit sys h, rfl⟩
    · exact ⟨_, _, step_selectWeekday sys v h hv hne, step_submit _ h, rfl⟩

theorem submit_payload_witness :
    (∃ ui, step editSys .submit = some
      { ui := ui,
        pending := [.menuPost (.obj [("breakfast", .str ""), ("lunch", .str ""),
          ("snacks", .str ""), ("dinner", .str ""), ("weekday", .str "Monday")]) "Monday"] }) ∧
    (∃ sys1 ui2, step editSys (.selectWeekday "Thursday") = some sys1 ∧
        step sys1 .submit = some
          { ui := ui2,
            pending := sys1.pending ++ [.menuPost (submitBody emptyMenu "Thursday") "Thursday"] } ∧
        (submitBody emptyMenu "Thursday").getProp "weekday" = .ok (some (.str "Thursday"))) :=
  ⟨(submit_payload editSys).2.2.1 rfl, (submit_payload editSys).2.2.2 rfl "Thursday" (by decide)⟩

/-! ## C5: a successful submit and its re-fetch -/

/-- C5, as stated, fails.  After a successful submit the re-fetch resolves with
2xx and a body whose four fields are "Dosa", "Rice", `null`, "Roti"; the draft's
snacks is then the empty string, not the body's `null`.  And when the re-fetch
resolves with 2xx and the body `null`, the draft keeps the submitted values. -/
theorem refetch_null_counterexample :
    ((run editSys [.submit, .resolve 0 (.response savedResponse),
        .resolve 0 (.response nullSnacksResponse)]).map (fun t => t.ui.menu.snacks)
      = some (.str "") ∧
     (Json.obj [("breakfast", .str "Dosa"), ("lunch", .str "Rice"),
                ("snacks", .null), ("dinner", .str "Roti")]).getProp "snacks"
      = .ok (some .null) ∧
     Json.str "" ≠ Json.null) ∧
    ((run { ui := mondayDraftState, pending := [] }
        [.submit, .resolve 0 (.response savedResponse),
         .resolve 0 (.response nullBodyResponse)]).map (fun t => t.ui.menu.breakfast)
      = some (.str "Idli")) := by
  refine ⟨⟨rfl, rfl, ?_⟩, rfl⟩
  intro h
  cases h

/-- C5, amended: in every state of the edit view, when the post started by a
submit gets a 2xx response whose JSON body carries `message: msg`,
`handleSubmitMenu` sets the message to `msg` and starts a menu fetch for the
weekday that was sent in the body; when that re-fetch resolves with 2xx and a
parsed body that is not `null`, each draft field is the body's value of the
field when that value is truthy (every string value is kept) and the empty
string when the field is missing or falsy. -/
theorem submit_then_refetch (sys : Sys) (r1 : Response) (d1 : Json) (msg : JsVal)
    (hview : sys.ui.activeView = .editMenu) (hok : r1.ok = true)
    (hjson : r1.json = .ok d1) (hmsg : d1.getProp "message" = .ok msg) :
    ∃ sys1 sys2,
      step sys .submit = some sys1 ∧
      sys1.pending = sys.pending ++
        [.menuPost (submitBody sys.ui.menu sys.ui.weekday) sys.ui.weekday] ∧
      (submitBody sys.ui.menu sys.ui.weekday).getProp "weekday"
        = .ok (some (.str sys.ui.weekday)) ∧
      step sys1 (.resolve sys.pending.length (.response r1)) = some sys2 ∧
      sys2.ui.message = msg ∧
      sys2.pending = sys.pending ++ [.menuGet sys.ui.weekday] ∧
      ∀ (r2 : Response) (d2 : Json), r2.ok = true → r2.json = .ok d2 → d2 ≠ .null →
        ∃ sys3, step sys2 (.resolve sys.pending.length (.response r2)) = some sys3 ∧
          ∀ f : Field,
            (∀ v, d2.getProp f.key = .ok (some v) → v.truthy = true →
              sys3.ui.menu.get f = v) ∧
            (∀ t, d2.getProp f.key = .ok (some (.str t)) → sys3.ui.menu.get f = .str t) ∧
            (∀ v, d2.getProp f.key = .ok (some v) → v.truthy = false →
              sys3.ui.menu.get f = .str "") ∧
            (d2.getProp f.key = .ok none → sys3.ui.menu.get f = .str "") := by
  have h1 := step_submit sys hview
  have h2 := step_resolve_menuPost { sys.ui with message := some (.str "") } sys.pending
    (submitBody sys.ui.menu sys.ui.weekday) sys.ui.weekday (.response r1)
  rw [handleSubmitMenuResume_ok _ r1 d1 msg hok hjson hmsg] at h2
  simp only [if_true] at h2
  refine ⟨_, _, h1, rfl, rfl, h2, rfl, rfl, ?_⟩
  intro r2 d2 hok2 hjson2 hd2
  refine ⟨_, step_resolve_menuGet _ sys.pending sys.ui.weekday (.response r2), ?_⟩
  obtain ⟨m, hm, hget⟩ := menuFromData_get d2 hd2
  rw [fetchMenu_ok _ sys.ui.weekday r2 d2 m hok2 hjson2 hm]
  intro f
  obtain ⟨v0, hv0, hf⟩ := hget f
  exact orEmpty_cases d2 f.key v0 _ hv0 hf

theorem submit_then_refetch_witness :
    ∃ sys1 sys2,
      step editSys .submit = some sys1 ∧
      step sys1 (.resolve 0 (.response savedResponse)) = some sys2 ∧
      sys2.ui.message = some (.str "Menu saved") ∧
      sys2.pending = [.menuGet "Monday"] ∧
      ∃ sys3, step sys2 (.resolve 0 (.response nullSnacksResponse)) = some sys3 ∧
        sys3.ui.menu.get .breakfast = .str "Dosa" ∧
        sys3.ui.menu.get .snacks = .str "" :=
  have ⟨sys1, sys2, h1, _, _, h2, h3, h4, h5⟩ :=
    submit_then_refetch editSys savedResponse (.obj [("message", .str "Menu saved")])
      (some (.str "Menu saved")) rfl rfl rfl rfl
  have ⟨sys3, h6, h7⟩ := h5 nullSnacksResponse
    (.obj [("breakfast", .str "Dosa"), ("lunch", .str "Rice"),
           ("snacks", .null), ("dinner", .str "Roti")]) rfl rfl (by intro h; cases h)
  ⟨sys1, sys2, h1, h2, h3, h4, sys3, h6, (h7 .breakfast).2.1 "Dosa" rfl,
    (h7 .snacks).2.2.1 .null rfl rfl⟩

/-! ## C10: the confirmation message after the re-fetch -/

/-- C10, as stated, fails: after a successful submit the re-fetch gets a 2xx
response, a 204 with an empty body or a 200 with the body `null`; the final
message is then the fetch-error message, not the empty string. -/
theorem refetch_2xx_error_counterexample :
    noContentResponse.ok = true ∧
    (run editSys [.submit, .resolve 0 (.response savedResponse),
        .resolve 0 (.response noContentResponse)]).map (fun t => t.ui.message)
      = some (some (.str "Error fetching menu: Network or server issue.")) ∧
    nullBodyResponse.ok = true ∧
    (run editSys [.submit, .resolve 0 (.response savedResponse),
        .resolve 0 (.response nullBodyResponse)]).map (fun t => t.ui.message)
      = some (some (.str "Error fetching menu: Network or server issue.")) ∧
    "Error fetching menu: Network or server issue." ≠ "" := by
  refine ⟨rfl, rfl, rfl, rfl, ?_⟩
  decide

/-- C10, amended: in every state of the edit view, after a submit whose post
gets a 2xx response carrying `message: msg` (so that the message is `msg`), the
re-fetch that `handleSubmitMenu` started always writes the message when it
resolves: to the empty string on a 2xx response whose body parses to a value
other than `null`; to "No menu found for W. You can create one." on a 404; and
to "Error fetching menu: Network or server issue." on any other outcome, that
is on another non-2xx status, on a rejected fetch, on a 2xx response whose body
is not JSON, and on a 2xx response whose body is `null`.  Whatever the outcome,
the message is then one of these three. -/
theorem refetch_overwrites_message (sys : Sys) (r1 : Response) (d1 : Json) (msg : JsVal)
    (hview : sys.ui.activeView = .editMenu) (hok : r1.ok = true)
    (hjson : r1.json = .ok d1) (hmsg : d1.getProp "message" = .ok msg) :
    ∃ sys1 sys2,
      step sys .submit = some sys1 ∧
      step sys1 (.resolve sys.pending.length (.response r1)) = some sys2 ∧
      sys2.ui.message = msg ∧
      (∀ (r2 : Response) (d2 : Json), r2.ok = true → r2.json = .ok d2 → d2 ≠ .null →
        ∃ sys3, step sys2 (.resolve sys.pending.length (.response r2)) = some sys3 ∧
          sys3.ui.message = some (.str "")) ∧
      (∀ r2 : Response, r2.status = 404 →
        ∃ sys3, step sys2 (.resolve sys.pending.length (.response r2)) = some sys3 ∧
          sys3.ui.message =
            some (.str ("No menu found for " ++ sys.ui.weekday ++ ". You can create one."))) ∧
      (∀ r2 : Response, r2.ok = false → r2.status ≠ 404 →
        ∃ sys3, step sys2 (.resolve sys.pending.length (.response r2)) = some sys3 ∧
          sys3.ui.message = some (.str "Error fetching menu: Network or server issue.")) ∧
      (∀ e : JsError,
        ∃ sys3, step sys2 (.resolve sys.pending.length (.reject e)) = some sys3 ∧
          sys3.ui.message = some (.str "Error fetching menu: Network or server issue.")) ∧
      (∀ (r2 : Response) (e : JsError), r2.ok = true → r2.json = .error e →
        ∃ sys3, step sys2 (.resolve sys.pending.length (.response r2)) = some sys3 ∧
          sys3.ui.message = some (.str "Error fetching menu: Network or server issue.")) ∧
      (∀ r2 : Response, r2.ok = true → r2.json = .ok .null →
        ∃ sys3, step sys2 (.resolve sys.pending.length (.response r2)) = some sys3 ∧
          sys3.ui.message = some (.str "Error fetching menu: Network or server issue.")) ∧
      (∀ o : Outcome,
        ∃ sys3, step sys2 (.resolve sys.pending.length o) = some sys3 ∧
          (sys3.ui.message = some (.str "") ∨
           sys3.ui.message =
             some (.str ("No menu found for " ++ sys.ui.weekday ++ ". You can create one.")) ∨
           sys3.ui.message = some (.str "Error fetching menu: Network or server issue."))) := by
  have h1 := step_submit sys hview
  have h2 := step_resolve_menuPost { sys.ui with message := some (.str "") } sys.pending
    (submitBody sys.ui.menu sys.ui.weekday) sys.ui.weekday (.response r1)
  rw [handleSubmitMenuResume_ok _ r1 d1 msg hok hjson hmsg] at h2
  simp only [if_true] at h2
  refine ⟨_, _, h1, h2, rfl, ?_, ?_, ?_, ?_, ?_, ?_, ?_⟩
  · intro r2 d2 hok2 hjson2 hd2
    refine ⟨_, step_resolve_menuGet _ sys.pending sys.ui.weekday (.response r2), ?_⟩
    obtain ⟨m, hm, _⟩ := menuFromData_get d2 hd2
    rw [fetchMenu_ok _ sys.ui.weekday r2 d2 m hok2 hjson2 hm]
  · intro r2 h404
    refine ⟨_, step_resolve_menuGet _ sys.pending sys.ui.weekday (.response r2), ?_⟩
    have hok2 : r2.ok = false := by simp [Response.ok, h404]
    simp only [fetchMenuForWeekday, hok2, h404]
    rfl
  · intro r2 hok2 h404
    refine ⟨_, step_resolve_menuGet _ sys.pending sys.ui.weekday (.response r2), ?_⟩
    simp only [fetchMenuForWeekday, hok2, h404]
    rfl
  · intro e
    exact ⟨_, step_resolve_menuGet _ sys.pending sys.ui.weekday (.reject e), rfl⟩
  · intro r2 e hok2 hjson2
    refine ⟨_, step_resolve_menuGet _ sys.pending sys.ui.weekday (.response r2), ?_⟩
    simp only [fetchMenuForWeekday, hok2, hjson2]
    rfl
  · intro r2 hok2 hjson2
    refine ⟨_, step_resolve_menuGet _ sys.pending sys.ui.weekday (.response r2), ?_⟩
    simp only [fetchMenuForWeekday, hok2, hjson2]
    rfl
  · intro o
    exact ⟨_, step_resolve_menuGet _ sys.pending sys.ui.weekday o,
      fetchMenu_message_cases _ sys.ui.weekday o⟩

theorem refetch_overwrites_message_witness :
    ∃ sys1 sys2,
      step editSys .submit = some sys1 ∧
      step sys1 (.resolve 0 (.response savedResponse)) = some sys2 ∧
      sys2.ui.message = some (.str "Menu saved") ∧
      (∃ sys3, step sys2 (.resolve 0 (.response nullSnacksResponse)) = some sys3 ∧
        sys3.ui.message = some (.str "")) ∧
      (∃ sys3, step sys2 (.resolve 0 (.response noContentResponse)) = some sys3 ∧
        sys3.ui.message = some (.str "Error fetching menu: Network or server issue.")) ∧
      (∃ sys3, step sys2 (.resolve 0 (.response nullBodyResponse)) = some sys3 ∧
        sys3.ui.message = some (.str "Error fetching menu: Network or server issue.")) :=
  have ⟨sys1, sys2, h1, h2, h3, h4, _, _, _, h5, h6, _⟩ :=
    refetch_overwrites_message editSys savedResponse (.obj [("message", .str "Menu saved")])
      (some (.str "Menu saved")) rfl rfl rfl rfl
  ⟨sys1, sys2, h1, h2, h3, h4 nullSnacksResponse
    (.obj [("breakfast", .str "Dosa"), ("lunch", .str "Rice"),
           ("snacks", .null), ("dinner", .str "Roti")]) rfl rfl (by intro h; cases h),
    h5 noContentResponse
      { name := "SyntaxError", message := "Unexpected end of JSON input" } rfl rfl,
    h6 nullBodyResponse rfl rfl⟩

/-! ## C6: the draft and the selected weekday -/

/-- C6, as stated, fails: in the run `staleTrace` the draft was loaded for
Monday, the fetch for Tuesday is still in flight, and the submit posts
Monday's four fields together with the weekday Tuesday. -/
theorem stale_submit_counterexample :
    (run initialSys staleTrace).map Sys.pending = some
      [.mealCountsGet, .menuGet "Tuesday",
       .menuPost (.obj [("breakfast", .str "Idli"), ("lunch", .str "Rice"),
                        ("snacks", .str "Tea"), ("dinner", .str "Roti"),
                        ("weekday", .str "Tuesday")]) "Tuesday"] ∧
    draftLoadedFor initialSys none staleTrace = some "Monday" ∧
    "Monday" ≠ "Tuesday" := by
  refine ⟨rfl, rfl, ?_⟩
  decide

/-- C6, amended: in every state of the edit view, when the weekday changes from
`W1` to another weekday `W2`, the same step starts a menu fetch for `W2` and
leaves the draft as it was; the draft is replaced when the response to that
fetch arrives (by the body's menu on a 2xx response that gives one, by the
all-empty menu on a 404); a submit is accepted in between and posts the draft
as it stands together with `W2`. -/
theorem weekday_change_refetch (sys : Sys) (W2 : String)
    (hview : sys.ui.activeView = .editMenu) (hW2 : W2 ∈ weekdays)
    (hne : W2 ≠ sys.ui.weekday) :
    ∃ sys1,
      step sys (.selectWeekday W2) = some sys1 ∧
      sys1.ui.weekday = W2 ∧ sys1.ui.menu = sys.ui.menu ∧
      sys1.pending = sys.pending ++ [.menuGet W2] ∧
      (∀ (r : Response) (data : Json) (m : Menu),
        r.ok = true → r.json = .ok data → menuFromData data = .ok m →
        ∃ sys2, step sys1 (.resolve sys.pending.length (.response r)) = some sys2 ∧
          sys2.ui.menu = m ∧ sys2.ui.weekday = W2 ∧ sys2.pending = sys.pending) ∧
      (∀ r : Response, r.status = 404 →
        ∃ sys2, step sys1 (.resolve sys.pending.length (.response r)) = some sys2 ∧
          sys2.ui.menu = emptyMenu ∧ sys2.ui.weekday = W2 ∧ sys2.pending = sys.pending) ∧
      (∃ ui2, step sys1 .submit = some
        { ui := ui2,
          pending := sys.pending ++ [.menuGet W2, .menuPost (submitBody sys.ui.menu W2) W2] }) := by
  refine ⟨_, step_selectWeekday sys W2 hview hW2 hne, rfl, rfl, rfl, ?_, ?_, ?_⟩
  · intro r data m hok hjson hm
    refine ⟨_, step_resolve_menuGet _ sys.pending W2 (.response r), ?_⟩
    rw [fetchMenu_ok _ W2 r data m hok hjson hm]
    exact ⟨rfl, rfl, rfl⟩
  · intro r h404
    refine ⟨_, step_resolve_menuGet _ sys.pending W2 (.response r), ?_⟩
    have hok : r.ok = false := by simp [Response.ok, h404]
    simp only [fetchMenuForWeekday, hok, h404]
    refine ⟨?_, ?_, ?_⟩ <;> first | rfl | trivial
  · have h := step_submit
      { ui := { sys.ui with weekday := W2 }, pending := sys.pending ++ [.menuGet W2] } hview
    refine ⟨{ sys.ui with weekday := W2, message := some (.str "") }, ?_⟩
    rw [h]
    simp only [List.append_assoc, List.singleton_append]

theorem weekday_change_refetch_witness :
    ∃ sys1,
      step editSys (.selectWeekday "Tuesday") = some sys1 ∧
      sys1.pending = [.menuGet "Tuesday"] ∧
      ∃ sys2, step sys1 (.resolve 0 (.response mondayMenuResponse)) = some sys2 ∧
        sys2.ui.menu.breakfast = .str "Idli" :=
  have ⟨sys1, h1, _, _, h2, h3, _⟩ :=
    weekday_change_refetch editSys "Tuesday" rfl (by decide) (by decide)
  have ⟨sys2, h4, h5, _⟩ := h3 mondayMenuResponse
    (.obj [("breakfast", .str "Idli"), ("lunch", .str "Rice"),
           ("snacks", .str "Tea"), ("dinner", .str "Roti")])
    { breakfast := .str "Idli", lunch := .str "Rice", snacks := .str "Tea",
      dinner := .str "Roti" } rfl rfl rfl
  ⟨sys1, h1, h2, sys2, h4, congrArg Menu.breakfast h5⟩

end MessBot
